import Mathlib

/-!
Verification of the XDP UDP port-redirect probe
(`examples/example-probes/src/xdp_udp_port_redirect/main.rs`).

The probe body (`portredirect`) is embedded line by line from the source.
The support-library primitives it calls (`ctx.transport()`, `ctx.ip()`,
`ctx.check_bounds(..)`, the enclosing XDP entry-point wrapper) live in the
probes support crate outside these sources, so they are modelled from the
specification, as marked on each definition.

A frame is a finite list of byte values; addresses are byte offsets from
the start of the frame (`data_start` is offset 0).
-/

namespace XdpUdpPortRedirect

abbrev Frame := List Nat

/-- Byte `i` of the frame (0 when out of range; every real access below is
bounds-checked before it happens). -/
def readByte (f : Frame) (i : Nat) : Nat := (f[i]?).getD 0

/-- A 16-bit big-endian field at byte offset `i`. -/
def readU16be (f : Frame) (i : Nat) : Nat := readByte f i * 256 + readByte f (i + 1)

/-- Byte-level effect of `(*hdr).dest = u16::from_be(v)`: `u16::from_be`
byte-swaps on a little-endian target and the plain store swaps back, so the
two bytes land in memory in big-endian order regardless of target
endianness. -/
def storeU16be (f : Frame) (i v : Nat) : Frame :=
  (f.set i (v / 256 % 256)).set (i + 1) (v % 256)

/-- Length of the (implicit) link-layer header preceding the network header. -/
def ethHdrLen : Nat := 14

/-- Fixed part of an IPv4 header. -/
def ipMinLen : Nat := 20

/-- `size_of::<usize>()` on the 64-bit BPF target. -/
def usizeLen : Nat := 8

/-- The fixed match-port of the redirect rule. -/
def matchPort : Nat := 9875

/-- The fixed rewrite-port of the redirect rule. -/
def rewritePort : Nat := 9876

/-- Errors of the support library's network parsing, as far as the probe can
observe them: no network header at all, a bounds failure, or an
unrecognized transport protocol. -/
inductive NetworkError
  | NoIPHeader
  | OutOfBounds
  | UnsupportedTransport
deriving DecidableEq, Repr

/-- The fields of the network-header view the probe reads: the header length
in 4-byte words (`ihl`) and the protocol identifier. -/
structure IpHdr where
  ihl : Nat
  protocol : Nat
deriving DecidableEq, Repr

/-- Modelled from the spec: `ctx.ip()` of the probes support crate (outside
these sources). "Network Header View: a read-only interpretation of bytes
at a given offset as a network-layer header ... Invariant: the view is only
valid if it lies fully within the frame's bounds."  A frame with no
recognizable network-layer header (EtherType not IPv4) yields `NoIPHeader`;
a view that does not fit the frame's bounds is any-other-parse-failure. -/
def ipOf (f : Frame) : Except NetworkError IpHdr :=
  if ethHdrLen ≤ f.length then
    if readU16be f 12 = 0x0800 then
      if ethHdrLen + ipMinLen ≤ f.length then
        Except.ok ⟨readByte f ethHdrLen % 16, readByte f (ethHdrLen + 9)⟩
      else Except.error NetworkError.OutOfBounds
    else Except.error NetworkError.NoIPHeader
  else Except.error NetworkError.OutOfBounds

/-- The transport-header view: one of UDP or TCP, "exposing source port and
destination port as 16-bit big-endian integers". -/
inductive Transport
  | UDP (src dst : Nat)
  | TCP (src dst : Nat)
deriving DecidableEq, Repr

/-- `transport.dest()`. -/
def Transport.dest : Transport → Nat
  | .UDP _ d => d
  | .TCP _ d => d

/-- `matches!(transport, Transport::UDP(_))`. -/
def Transport.isUDP : Transport → Bool
  | .UDP _ _ => true
  | .TCP _ _ => false

/-- Modelled from the spec: transport parsing given a parsed network header.
"The offset of this view is network-header-start +
(network-header-length-field × 4); this offset must be validated against
frame bounds before any access" — the accessed fields are the two 16-bit
ports, spanning 4 bytes from the transport offset. -/
def transportAt (f : Frame) (hdr : IpHdr) : Except NetworkError Transport :=
  if hdr.protocol = 17 then
    if ethHdrLen + hdr.ihl * 4 + 4 ≤ f.length then
      Except.ok (Transport.UDP (readU16be f (ethHdrLen + hdr.ihl * 4))
        (readU16be f (ethHdrLen + hdr.ihl * 4 + 2)))
    else Except.error NetworkError.OutOfBounds
  else if hdr.protocol = 6 then
    if ethHdrLen + hdr.ihl * 4 + 4 ≤ f.length then
      Except.ok (Transport.TCP (readU16be f (ethHdrLen + hdr.ihl * 4))
        (readU16be f (ethHdrLen + hdr.ihl * 4 + 2)))
    else Except.error NetworkError.OutOfBounds
  else Except.error NetworkError.UnsupportedTransport

/-- Modelled from the spec: `ctx.transport()` of the probes support crate
(outside these sources). "Attempt to interpret the frame as containing a
transport-layer header at a protocol-dependent offset", distinguished by the
network header's protocol field; any network-header parse failure
propagates. -/
def transportOf (f : Frame) : Except NetworkError Transport :=
  match ipOf f with
  | Except.error e => Except.error e
  | Except.ok hdr => transportAt f hdr

/-- Modelled from the spec: `ctx.check_bounds(lo, hi)` of the probes support
crate (outside these sources). "Verify that the computed offset plus the
width of the field to be written ... lies entirely within the frame's valid
bounds." -/
def checkBounds (f : Frame) (lo hi : Nat) : Bool :=
  decide (lo < hi) && decide (hi ≤ f.length)

/-- The XDP action values; this probe only ever produces `pass`. -/
inductive XdpAction
  | aborted
  | drop
  | pass
  | tx
  | redirect
deriving DecidableEq, Repr

/-- The probe's raw result: `Ok(action)`, a propagated `Err(e)` from a `?`,
or the `unreachable!()` abort. -/
inductive RawResult
  | ok (a : XdpAction)
  | err (e : NetworkError)
  | abort
deriving DecidableEq, Repr

/-- One invocation's complete observable effect: the returned result, the
frame buffer after the call, and the diagnostic strings emitted via
`bpf_trace_printk`, in emission order. -/
structure ProbeOut where
  res : RawResult
  frame : Frame
  traces : List String
deriving DecidableEq, Repr

def msgNonUDP : String := "received non-UDP traffic, skipping"

def msgGotUDP : String := "got UDP traffic on port 9875"

def msgRedirected : String := "redirected UDP traffic from port 9875 to 9876"

/-- Lines 70-80 of main.rs: trace, compute
`addr = ip as usize + ((*ip).ihl() * 4) as usize`, bounds-check the span
`[addr, addr + size_of::<usize>())`, and on success write the rewrite-port
big-endian into the `dest` field at byte offset 2 of the UDP header. -/
def rewriteStep (f : Frame) (hdr : IpHdr) : ProbeOut :=
  if checkBounds f (ethHdrLen + hdr.ihl * 4) (ethHdrLen + hdr.ihl * 4 + usizeLen) then
    ⟨RawResult.ok XdpAction.pass,
      storeU16be f (ethHdrLen + hdr.ihl * 4 + 2) rewritePort,
      [msgGotUDP, msgRedirected]⟩
  else
    ⟨RawResult.err NetworkError.OutOfBounds, f, [msgGotUDP]⟩

/-- Lines 59-80 of main.rs: pass anything not on port 9875, pass (with a
diagnostic) anything that is not UDP, otherwise rewrite. -/
def afterIp (f : Frame) (t : Transport) (hdr : IpHdr) : ProbeOut :=
  if t.dest ≠ matchPort then ⟨RawResult.ok XdpAction.pass, f, []⟩
  else if t.isUDP = false then ⟨RawResult.ok XdpAction.pass, f, [msgNonUDP]⟩
  else rewriteStep f hdr

/-- Lines 53-57 of main.rs: the `match ctx.ip()` — `NoIPHeader` returns
`Ok(Pass)`, any other error hits `unreachable!()`, success continues. -/
def ipDispatch (f : Frame) (t : Transport) : Except NetworkError IpHdr → ProbeOut
  | Except.error NetworkError.NoIPHeader => ⟨RawResult.ok XdpAction.pass, f, []⟩
  | Except.error _ => ⟨RawResult.abort, f, []⟩
  | Except.ok hdr => afterIp f t hdr

/-- The probe `portredirect`, lines 49-83 of main.rs.
`ctx.transport()?` propagates any parse error; otherwise the ip match and
the rest of the body run. -/
def portredirect (f : Frame) : ProbeOut :=
  match transportOf f with
  | Except.error e => ⟨RawResult.err e, f, []⟩
  | Except.ok t => ipDispatch f t (ipOf f)

/-- The two frame dispositions of the spec's data model. -/
inductive Decision
  | passUnmodified
  | passAfterRewrite
deriving DecidableEq, Repr

/-- Modelled from the spec: the enclosing XDP entry-point wrapper (outside
these sources) consumes the probe's result; an error is surfaced but the
frame still takes the safe pass-through disposition ("the frame itself
should still default to a safe disposition — passing through unmodified").
The two dispositions differ "in whether a mutation occurred"; an abort has
no disposition. -/
def decisionOf (f : Frame) : Option Decision :=
  match portredirect f with
  | ⟨RawResult.abort, _, _⟩ => none
  | ⟨_, f2, _⟩ =>
    if f2 = f then some Decision.passUnmodified else some Decision.passAfterRewrite

/-- `true` exactly when the frame parses as IPv4/UDP with destination port
equal to the match-port. -/
def matchesUdp9875 (f : Frame) : Bool :=
  match transportOf f with
  | Except.ok (Transport.UDP _ d) => decide (d = matchPort)
  | _ => false

/-! ### Concrete frames (used by the witness theorems) -/

/-- Minimal IPv4 (ihl = 5, no options) / UDP frame, destination port 9875,
source port 36611, 2 payload bytes; 44 bytes total. -/
def frameA : Frame :=
  [0, 0, 0, 0, 0, 0, 0, 0, 0, 0, 0, 0, 8, 0,
   69, 0, 0, 30, 0, 0, 0, 0, 64, 17, 0, 0, 127, 0, 0, 1, 127, 0, 0, 1,
   143, 3, 38, 147, 0, 10, 0, 0,
   104, 105]

/-- IPv4 with 4 bytes of options (ihl = 6) / UDP frame, destination port
9875; 48 bytes total. -/
def frameB6 : Frame :=
  [0, 0, 0, 0, 0, 0, 0, 0, 0, 0, 0, 0, 8, 0,
   70, 0, 0, 34, 0, 0, 0, 0, 64, 17, 0, 0, 127, 0, 0, 1, 127, 0, 0, 1,
   1, 1, 1, 0,
   0, 7, 38, 147, 0, 10, 0, 0,
   104, 105]

/-- IPv4 / TCP frame whose destination port is 9875; 54 bytes total. -/
def frameTcp : Frame :=
  [0, 0, 0, 0, 0, 0, 0, 0, 0, 0, 0, 0, 8, 0,
   69, 0, 0, 40, 0, 0, 0, 0, 64, 6, 0, 0, 127, 0, 0, 1, 127, 0, 0, 1,
   0, 80, 38, 147, 0, 0, 0, 0, 0, 0, 0, 0, 80, 2, 0, 0, 0, 0, 0, 0]

/-- IPv4 / UDP frame, destination port 9875, truncated right after the port
fields: 38 bytes, so the 8-byte span starting at the transport offset 34
does not fit. -/
def frameTrunc : Frame :=
  [0, 0, 0, 0, 0, 0, 0, 0, 0, 0, 0, 0, 8, 0,
   69, 0, 0, 24, 0, 0, 0, 0, 64, 17, 0, 0, 127, 0, 0, 1, 127, 0, 0, 1,
   0, 7, 38, 147]

/-- A 14-byte non-IP frame (EtherType 0x0806, ARP). -/
def frameArp : Frame :=
  [0, 0, 0, 0, 0, 0, 0, 0, 0, 0, 0, 0, 8, 6]

/-- IPv4 / UDP frame whose destination port is 53, not the match-port. -/
def frameDns : Frame :=
  [0, 0, 0, 0, 0, 0, 0, 0, 0, 0, 0, 0, 8, 0,
   69, 0, 0, 30, 0, 0, 0, 0, 64, 17, 0, 0, 127, 0, 0, 1, 127, 0, 0, 1,
   143, 3, 0, 53, 0, 10, 0, 0,
   104, 105]

/-! ### Helper lemmas -/

lemma storeU16be_length (f : Frame) (i v : Nat) :
    (storeU16be f i v).length = f.length := by
  simp [storeU16be]

lemma storeU16be_get_ne (f : Frame) (i v j : Nat) (h1 : j ≠ i) (h2 : j ≠ i + 1) :
    (storeU16be f i v)[j]? = f[j]? := by
  rw [storeU16be, List.getElem?_set_ne (Ne.symm h2), List.getElem?_set_ne (Ne.symm h1)]

lemma storeU16be_get_fst (f : Frame) (i v : Nat) (h : i < f.length) :
    (storeU16be f i v)[i]? = some (v / 256 % 256) := by
  rw [storeU16be, List.getElem?_set_ne (by omega)]
  exact List.getElem?_set_self h

lemma storeU16be_get_snd (f : Frame) (i v : Nat) (h : i + 1 < f.length) :
    (storeU16be f i v)[i + 1]? = some (v % 256) := by
  rw [storeU16be]
  exact List.getElem?_set_self (by simpa using h)

lemma readU16be_store (f : Frame) (i : Nat) (h : i + 1 < f.length) :
    readU16be (storeU16be f i rewritePort) i = rewritePort := by
  rw [readU16be, readByte, readByte, storeU16be_get_fst f i _ (by omega),
    storeU16be_get_snd f i _ h]
  rfl

lemma storeU16be_ne (f : Frame) (i : Nat) (hd : readU16be f i = matchPort)
    (h : i + 1 < f.length) : storeU16be f i rewritePort ≠ f := by
  intro he
  have h2 : (storeU16be f i rewritePort)[i + 1]? = some (rewritePort % 256) :=
    storeU16be_get_snd f i _ h
  rw [he] at h2
  rw [readU16be, readByte, readByte, h2] at hd
  simp [matchPort, rewritePort] at hd
  omega

lemma checkBounds_iff (f : Frame) (lo hi : Nat) :
    checkBounds f lo hi = true ↔ lo < hi ∧ hi ≤ f.length := by
  simp [checkBounds]

lemma ipOf_of_transportOf_ok (f : Frame) (t : Transport)
    (h : transportOf f = Except.ok t) : ∃ hdr, ipOf f = Except.ok hdr := by
  unfold transportOf at h
  split at h
  · exact absurd h (by simp)
  · next hdr heq => exact ⟨hdr, heq⟩

lemma transportAt_of_ok (f : Frame) (t : Transport) (hdr : IpHdr)
    (ht : transportOf f = Except.ok t) (hip : ipOf f = Except.ok hdr) :
    transportAt f hdr = Except.ok t := by
  unfold transportOf at ht
  rw [hip] at ht
  exact ht

lemma transportAt_udp_char (f : Frame) (hdr : IpHdr) (s d : Nat)
    (h : transportAt f hdr = Except.ok (Transport.UDP s d)) :
    hdr.protocol = 17 ∧ ethHdrLen + hdr.ihl * 4 + 4 ≤ f.length ∧
      readU16be f (ethHdrLen + hdr.ihl * 4 + 2) = d := by
  unfold transportAt at h
  by_cases h17 : hdr.protocol = 17
  · rw [if_pos h17] at h
    by_cases hlen : ethHdrLen + hdr.ihl * 4 + 4 ≤ f.length
    · rw [if_pos hlen] at h
      simp only [Except.ok.injEq, Transport.UDP.injEq] at h
      exact ⟨h17, hlen, h.2⟩
    · rw [if_neg hlen] at h
      exact absurd h (by simp)
  · rw [if_neg h17] at h
    by_cases h6 : hdr.protocol = 6
    · rw [if_pos h6] at h
      split at h
      · exact absurd h (by simp)
      · exact absurd h (by simp)
    · rw [if_neg h6] at h
      exact absurd h (by simp)

lemma portredirect_err (f : Frame) (e : NetworkError)
    (h : transportOf f = Except.error e) :
    portredirect f = ⟨RawResult.err e, f, []⟩ := by
  simp [portredirect, h]

lemma portredirect_ok (f : Frame) (t : Transport) (hdr : IpHdr)
    (ht : transportOf f = Except.ok t) (hip : ipOf f = Except.ok hdr) :
    portredirect f = afterIp f t hdr := by
  simp [portredirect, ht, hip, ipDispatch]

lemma afterIp_match_udp (f : Frame) (s : Nat) (hdr : IpHdr) :
    afterIp f (Transport.UDP s matchPort) hdr = rewriteStep f hdr := by
  simp [afterIp, Transport.dest, Transport.isUDP]

lemma decisionOf_unmodified (f : Frame) (r : RawResult) (tr : List String)
    (h : portredirect f = ⟨r, f, tr⟩) (hr : r ≠ RawResult.abort) :
    decisionOf f = some Decision.passUnmodified := by
  unfold decisionOf
  rw [h]
  cases r <;> simp_all

/-! ### Claim theorems -/

/-- C1: for every well-formed IPv4/UDP frame whose UDP destination port is
9875 and whose transport offset plus the checked span lies within the frame
bounds, the probe returns Pass, changes the frame only within the 2 bytes
of the transport destination-port field, makes that field decode
big-endian to 9876, and the resulting decision is Pass-after-rewrite. -/
theorem c1_exact_single_field_mutation (f : Frame) (s : Nat) (hdr : IpHdr) (a : Nat)
    (ht : transportOf f = Except.ok (Transport.UDP s matchPort))
    (hip : ipOf f = Except.ok hdr)
    (ha : a = ethHdrLen + hdr.ihl * 4)
    (hb : a + usizeLen ≤ f.length) :
    (portredirect f).res = RawResult.ok XdpAction.pass ∧
    (portredirect f).frame.length = f.length ∧
    (∀ j, j ≠ a + 2 → j ≠ a + 3 → (portredirect f).frame[j]? = f[j]?) ∧
    readU16be (portredirect f).frame (a + 2) = rewritePort ∧
    decisionOf f = some Decision.passAfterRewrite := by
  subst ha
  have hcb : checkBounds f (ethHdrLen + hdr.ihl * 4)
      (ethHdrLen + hdr.ihl * 4 + usizeLen) = true := by
    rw [checkBounds_iff]
    exact ⟨by simp [usizeLen], hb⟩
  have hpr : portredirect f = ⟨RawResult.ok XdpAction.pass,
      storeU16be f (ethHdrLen + hdr.ihl * 4 + 2) rewritePort,
      [msgGotUDP, msgRedirected]⟩ := by
    rw [portredirect_ok f _ hdr ht hip, afterIp_match_udp, rewriteStep, if_pos hcb]
  have hlen : ethHdrLen + hdr.ihl * 4 + 2 + 1 < f.length := by
    rw [usizeLen] at hb
    omega
  have hdst : readU16be f (ethHdrLen + hdr.ihl * 4 + 2) = matchPort :=
    (transportAt_udp_char f hdr s matchPort (transportAt_of_ok f _ hdr ht hip)).2.2
  have hne : storeU16be f (ethHdrLen + hdr.ihl * 4 + 2) rewritePort ≠ f :=
    storeU16be_ne f _ hdst hlen
  refine ⟨by rw [hpr], by rw [hpr]; exact storeU16be_length f _ _, ?_, ?_, ?_⟩
  · intro j hj2 hj3
    rw [hpr]
    exact storeU16be_get_ne f _ _ j hj2 (by omega)
  · rw [hpr]
    exact readU16be_store f _ hlen
  · unfold decisionOf
    rw [hpr]
    simp [hne]

/-- C3: the mutation offset is computed as network-header-start plus four
times the IPv4 `ihl` field, so the exact-single-field mutation lands at
that ihl-derived offset for any header length; for ihl = 6 the offset is 4
bytes past the ihl = 5 offset. -/
theorem c3_variable_header_length (f : Frame) (s : Nat) (hdr : IpHdr) (a : Nat)
    (ht : transportOf f = Except.ok (Transport.UDP s matchPort))
    (hip : ipOf f = Except.ok hdr)
    (ha : a = ethHdrLen + hdr.ihl * 4)
    (hb : a + usizeLen ≤ f.length) :
    (portredirect f).frame = storeU16be f (a + 2) rewritePort ∧
    (∀ j, j ≠ a + 2 → j ≠ a + 3 → (portredirect f).frame[j]? = f[j]?) ∧
    readU16be (portredirect f).frame (a + 2) = rewritePort ∧
    (hdr.ihl = 6 → a + 2 = ethHdrLen + 5 * 4 + 2 + 4) := by
  subst ha
  have hcb : checkBounds f (ethHdrLen + hdr.ihl * 4)
      (ethHdrLen + hdr.ihl * 4 + usizeLen) = true := by
    rw [checkBounds_iff]
    exact ⟨by simp [usizeLen], hb⟩
  have hpr : portredirect f = ⟨RawResult.ok XdpAction.pass,
      storeU16be f (ethHdrLen + hdr.ihl * 4 + 2) rewritePort,
      [msgGotUDP, msgRedirected]⟩ := by
    rw [portredirect_ok f _ hdr ht hip, afterIp_match_udp, rewriteStep, if_pos hcb]
  have hlen : ethHdrLen + hdr.ihl * 4 + 2 + 1 < f.length := by
    rw [usizeLen] at hb
    omega
  refine ⟨by rw [hpr], ?_, ?_, ?_⟩
  · intro j hj2 hj3
    rw [hpr]
    exact storeU16be_get_ne f _ _ j hj2 (by omega)
  · rw [hpr]
    exact readU16be_store f _ hlen
  · intro h6
    rw [h6]

/-- C2: every frame that is not IPv4/UDP-with-destination-port-9875 passes
through with its buffer byte-for-byte unchanged and the decision is
Pass-unmodified. -/
theorem c2_passthrough_invariance (f : Frame) (h : matchesUdp9875 f = false) :
    (portredirect f).frame = f ∧ decisionOf f = some Decision.passUnmodified := by
  unfold matchesUdp9875 at h
  cases ht : transportOf f with
  | error e =>
    have hpr := portredirect_err f e ht
    exact ⟨by rw [hpr], decisionOf_unmodified f _ _ hpr (by simp)⟩
  | ok t =>
    obtain ⟨hdr, hip⟩ := ipOf_of_transportOf_ok f t ht
    have hpr := portredirect_ok f t hdr ht hip
    cases t with
    | UDP s d =>
      rw [ht] at h
      simp only [decide_eq_false_iff_not] at h
      have hfin : afterIp f (Transport.UDP s d) hdr =
          ⟨RawResult.ok XdpAction.pass, f, []⟩ := by
        rw [afterIp, if_pos]
        exact h
      rw [hfin] at hpr
      exact ⟨by rw [hpr], decisionOf_unmodified f _ _ hpr (by simp)⟩
    | TCP s d =>
      by_cases hd : d = matchPort
      · have hfin : afterIp f (Transport.TCP s d) hdr =
            ⟨RawResult.ok XdpAction.pass, f, [msgNonUDP]⟩ := by
          rw [afterIp, if_neg (by simp [Transport.dest, hd])]
          simp [Transport.isUDP]
        rw [hfin] at hpr
        exact ⟨by rw [hpr], decisionOf_unmodified f _ _ hpr (by simp)⟩
      · have hfin : afterIp f (Transport.TCP s d) hdr =
            ⟨RawResult.ok XdpAction.pass, f, []⟩ := by
          rw [afterIp, if_pos]
          exact hd
        rw [hfin] at hpr
        exact ⟨by rw [hpr], decisionOf_unmodified f _ _ hpr (by simp)⟩

/-- C4: an IPv4/UDP frame with destination port 9875 that is truncated so
the transport offset plus the 8-byte checked span exceeds the frame's
bounds is left untouched and the probe fails with a Bounds-violation
error; the bounds check happens strictly before the write. -/
theorem c4_bounds_violation_no_write (f : Frame) (s : Nat) (hdr : IpHdr) (a : Nat)
    (ht : transportOf f = Except.ok (Transport.UDP s matchPort))
    (hip : ipOf f = Except.ok hdr)
    (ha : a = ethHdrLen + hdr.ihl * 4)
    (hb : f.length < a + usizeLen) :
    portredirect f = ⟨RawResult.err NetworkError.OutOfBounds, f, [msgGotUDP]⟩ := by
  subst ha
  have hcb : checkBounds f (ethHdrLen + hdr.ihl * 4)
      (ethHdrLen + hdr.ihl * 4 + usizeLen) = false := by
    rw [checkBounds]
    simp only [Bool.and_eq_false_iff, decide_eq_false_iff_not]
    right
    omega
  rw [portredirect_ok f _ hdr ht hip, afterIp_match_udp, rewriteStep,
    if_neg (by rw [hcb]; exact Bool.false_ne_true)]

/-- C5: a recognized-transport frame whose destination port is 9875 but
whose transport protocol is not UDP passes through with no buffer
mutation and exactly the diagnostic
"received non-UDP traffic, skipping". -/
theorem c5_non_udp_diagnostic (f : Frame) (t : Transport)
    (ht : transportOf f = Except.ok t)
    (hn : t.isUDP = false) (hd : t.dest = matchPort) :
    portredirect f = ⟨RawResult.ok XdpAction.pass, f, [msgNonUDP]⟩ := by
  obtain ⟨hdr, hip⟩ := ipOf_of_transportOf_ok f t ht
  rw [portredirect_ok f t hdr ht hip, afterIp,
    if_neg (by simp [hd]), if_pos hn]

/-- C6: when transport-header parsing fails, the probe exits at once with
the parse error, the frame buffer is untouched, no diagnostic is emitted,
and the resulting disposition is Pass-unmodified. -/
theorem c6_unclassifiable_pass (f : Frame) (e : NetworkError)
    (h : transportOf f = Except.error e) :
    portredirect f = ⟨RawResult.err e, f, []⟩ ∧
    decisionOf f = some Decision.passUnmodified := by
  have hpr := portredirect_err f e h
  exact ⟨hpr, decisionOf_unmodified f _ _ hpr (by simp)⟩

/-- C7: a frame with no recognizable network header takes the
Pass-unmodified disposition; once the transport parse has succeeded the
network parse has succeeded too, so the unreachable arm of the ip match is
never taken; and that arm, if ever entered with a non-NoIPHeader error,
aborts the invocation rather than returning a recoverable result. -/
theorem c7_ip_parse_dispatch (f : Frame) (t : Transport) :
    (ipOf f = Except.error NetworkError.NoIPHeader →
      portredirect f = ⟨RawResult.err NetworkError.NoIPHeader, f, []⟩ ∧
      decisionOf f = some Decision.passUnmodified) ∧
    (∀ t2, transportOf f = Except.ok t2 → ∃ hdr, ipOf f = Except.ok hdr) ∧
    (∀ e, e ≠ NetworkError.NoIPHeader →
      ipDispatch f t (Except.error e) = ⟨RawResult.abort, f, []⟩) := by
  refine ⟨?_, fun t2 h => ipOf_of_transportOf_ok f t2 h, ?_⟩
  · intro hip
    have ht : transportOf f = Except.error NetworkError.NoIPHeader := by
      rw [transportOf, hip]
    have hpr := portredirect_err f _ ht
    exact ⟨hpr, decisionOf_unmodified f _ _ hpr (by simp)⟩
  · intro e he
    cases e with
    | NoIPHeader => exact absurd rfl he
    | OutOfBounds => rfl
    | UnsupportedTransport => rfl

/-- C8: the destination-port comparison precedes the protocol check — any
recognized-transport frame whose destination port is not 9875 passes
through unmodified with no diagnostic at all, UDP or not. -/
theorem c8_port_check_before_protocol (f : Frame) (t : Transport)
    (ht : transportOf f = Except.ok t) (hd : t.dest ≠ matchPort) :
    portredirect f = ⟨RawResult.ok XdpAction.pass, f, []⟩ := by
  obtain ⟨hdr, hip⟩ := ipOf_of_transportOf_ok f t ht
  rw [portredirect_ok f t hdr ht hip, afterIp, if_pos hd]

/-- C9: the checked span covers a full machine word from the transport
offset and strictly contains the 2-byte destination-port field at byte
offset 2, so a successful bounds check puts both written bytes inside the
frame and the store lands as the big-endian bytes of 9876. -/
theorem c9_span_contains_write (f : Frame) (a : Nat)
    (h : checkBounds f a (a + usizeLen) = true) :
    a < a + 2 ∧ a + 2 + 2 < a + usizeLen ∧
    a + 2 < f.length ∧ a + 3 < f.length ∧
    (storeU16be f (a + 2) rewritePort)[a + 2]? = some 38 ∧
    (storeU16be f (a + 2) rewritePort)[a + 3]? = some 148 := by
  rw [checkBounds_iff, usizeLen] at h
  have h3 : a + 3 < f.length := by omega
  refine ⟨by omega, by rw [usizeLen]; omega, by omega, h3, ?_, ?_⟩
  · rw [storeU16be_get_fst f (a + 2) rewritePort (by omega)]
    rfl
  · have heq : a + 3 = a + 2 + 1 := by omega
    rw [heq, storeU16be_get_snd f (a + 2) rewritePort (by omega)]
    rfl

/-- C10: diagnostics are not atomic with the mutation — for an IPv4/UDP
frame on port 9875 the "got UDP traffic" message is emitted before the
bounds check, so it survives a bounds failure even though the frame stays
untouched, and the "redirected" message appears exactly when the mutation
happened. -/
theorem c10_diagnostic_ordering (f : Frame) (s : Nat) (hdr : IpHdr) (a : Nat)
    (ht : transportOf f = Except.ok (Transport.UDP s matchPort))
    (hip : ipOf f = Except.ok hdr)
    (ha : a = ethHdrLen + hdr.ihl * 4) :
    (checkBounds f a (a + usizeLen) = false →
      portredirect f = ⟨RawResult.err NetworkError.OutOfBounds, f, [msgGotUDP]⟩) ∧
    (checkBounds f a (a + usizeLen) = true →
      portredirect f = ⟨RawResult.ok XdpAction.pass,
        storeU16be f (a + 2) rewritePort, [msgGotUDP, msgRedirected]⟩) ∧
    (msgRedirected ∈ (portredirect f).traces ↔ (portredirect f).frame ≠ f) ∧
    msgGotUDP ∈ (portredirect f).traces := by
  subst ha
  have hpr : portredirect f = rewriteStep f hdr := by
    rw [portredirect_ok f _ hdr ht hip, afterIp_match_udp]
  have hdst : readU16be f (ethHdrLen + hdr.ihl * 4 + 2) = matchPort :=
    (transportAt_udp_char f hdr s matchPort (transportAt_of_ok f _ hdr ht hip)).2.2
  cases hcb : checkBounds f (ethHdrLen + hdr.ihl * 4)
      (ethHdrLen + hdr.ihl * 4 + usizeLen) with
  | false =>
    have hfin : portredirect f =
        ⟨RawResult.err NetworkError.OutOfBounds, f, [msgGotUDP]⟩ := by
      rw [hpr, rewriteStep, if_neg (by rw [hcb]; exact Bool.false_ne_true)]
    refine ⟨fun _ => hfin, fun hc => Bool.noConfusion hc, ?_, ?_⟩
    · rw [hfin]
      simp [msgRedirected, msgGotUDP]
    · rw [hfin]
      simp
  | true =>
    have hlen : ethHdrLen + hdr.ihl * 4 + 2 + 1 < f.length := by
      rw [checkBounds_iff, usizeLen] at hcb
      omega
    have hne : storeU16be f (ethHdrLen + hdr.ihl * 4 + 2) rewritePort ≠ f :=
      storeU16be_ne f _ hdst hlen
    have hfin : portredirect f = ⟨RawResult.ok XdpAction.pass,
        storeU16be f (ethHdrLen + hdr.ihl * 4 + 2) rewritePort,
        [msgGotUDP, msgRedirected]⟩ := by
      rw [hpr, rewriteStep, if_pos hcb]
    refine ⟨fun hc => Bool.noConfusion hc, fun _ => hfin, ?_, ?_⟩
    · rw [hfin]
      simp [hne]
    · rw [hfin]
      simp

/-! ### Witnesses -/

/-- Witness for C1 at the minimal IPv4/UDP frame with destination port
9875. -/
theorem c1_witness :
    readU16be (portredirect frameA).frame (34 + 2) = rewritePort ∧
    decisionOf frameA = some Decision.passAfterRewrite :=
  ⟨(c1_exact_single_field_mutation frameA 36611 ⟨5, 17⟩ 34 rfl rfl rfl
      (by decide)).2.2.2.1,
   (c1_exact_single_field_mutation frameA 36611 ⟨5, 17⟩ 34 rfl rfl rfl
      (by decide)).2.2.2.2⟩

/-- Witness for C2 at an IPv4/UDP frame with destination port 53. -/
theorem c2_witness :
    (portredirect frameDns).frame = frameDns ∧
    decisionOf frameDns = some Decision.passUnmodified :=
  c2_passthrough_invariance frameDns (by decide)

/-- Witness for C3 at an IPv4/UDP frame with a 24-byte header (ihl = 6):
the mutation offset is shifted 4 bytes past the ihl = 5 offset. -/
theorem c3_witness :
    (portredirect frameB6).frame = storeU16be frameB6 (38 + 2) rewritePort ∧
    38 + 2 = ethHdrLen + 5 * 4 + 2 + 4 :=
  ⟨(c3_variable_header_length frameB6 7 ⟨6, 17⟩ 38 rfl rfl rfl (by decide)).1,
   (c3_variable_header_length frameB6 7 ⟨6, 17⟩ 38 rfl rfl rfl (by decide)).2.2.2 rfl⟩

/-- Witness for C4 at a 38-byte truncated IPv4/UDP frame on port 9875. -/
theorem c4_witness :
    portredirect frameTrunc =
      ⟨RawResult.err NetworkError.OutOfBounds, frameTrunc, [msgGotUDP]⟩ :=
  c4_bounds_violation_no_write frameTrunc 7 ⟨5, 17⟩ 34 rfl rfl rfl (by decide)

/-- Witness for C5 at a TCP frame whose destination port is 9875. -/
theorem c5_witness :
    portredirect frameTcp = ⟨RawResult.ok XdpAction.pass, frameTcp, [msgNonUDP]⟩ :=
  c5_non_udp_diagnostic frameTcp (Transport.TCP 80 9875) rfl rfl rfl

/-- Witness for C6 at a 14-byte ARP frame. -/
theorem c6_witness :
    portredirect frameArp = ⟨RawResult.err NetworkError.NoIPHeader, frameArp, []⟩ ∧
    decisionOf frameArp = some Decision.passUnmodified :=
  c6_unclassifiable_pass frameArp NetworkError.NoIPHeader rfl

/-- Witness for C7: the ARP frame has no IP header and passes through, and
the unreachable arm of the ip match aborts on an out-of-bounds error. -/
theorem c7_witness :
    portredirect frameArp = ⟨RawResult.err NetworkError.NoIPHeader, frameArp, []⟩ ∧
    ipDispatch frameArp (Transport.UDP 0 0) (Except.error NetworkError.OutOfBounds) =
      ⟨RawResult.abort, frameArp, []⟩ :=
  ⟨((c7_ip_parse_dispatch frameArp (Transport.UDP 0 0)).1 rfl).1,
   (c7_ip_parse_dispatch frameArp (Transport.UDP 0 0)).2.2
     NetworkError.OutOfBounds (by decide)⟩

/-- Witness for C8 at a UDP frame with destination port 53: no diagnostic
and an unmodified pass. -/
theorem c8_witness :
    portredirect frameDns = ⟨RawResult.ok XdpAction.pass, frameDns, []⟩ :=
  c8_port_check_before_protocol frameDns (Transport.UDP 36611 53) rfl (by decide)

/-- Witness for C9 at offset 34 of the minimal IPv4/UDP frame. -/
theorem c9_witness :
    (storeU16be frameA (34 + 2) rewritePort)[34 + 2]? = some 38 ∧
    (storeU16be frameA (34 + 2) rewritePort)[34 + 3]? = some 148 :=
  ⟨(c9_span_contains_write frameA 34 (by decide)).2.2.2.2.1,
   (c9_span_contains_write frameA 34 (by decide)).2.2.2.2.2⟩

/-- Witness for C10: on the minimal IPv4/UDP frame the bounds check holds
and both diagnostics are emitted around the mutation. -/
theorem c10_witness :
    portredirect frameA = ⟨RawResult.ok XdpAction.pass,
      storeU16be frameA (34 + 2) rewritePort, [msgGotUDP, msgRedirected]⟩ :=
  (c10_diagnostic_ordering frameA 36611 ⟨5, 17⟩ 34 rfl rfl rfl).2.1 (by decide)


end XdpUdpPortRedirect
